import Mathlib

/-!
Verification of the exFAT read-side driver (crate `exfat`).

The boot sector is modelled as a total function `Nat → Nat` giving the byte
value at each offset; `ExFat::open` only ever reads fixed offsets below 512,
so this is a faithful shallow embedding of the raw-pointer reads performed
through `util::mem`.  Machine integers are modelled as `Nat` (all arithmetic
in the parsed code stays far below every relevant modulus: `1u64 << v` with
`v ≤ 25`, and the `u8` subtraction `25 - v` runs only after `9 ≤ v ≤ 12`
holds, which the safety theorem below establishes).
-/

/-- A raw byte image: byte value at each offset (values are bytes, `< 256`,
for images produced by the encoder; the parser never depends on that bound). -/
def ByteImage : Type := Nat → Nat

/-- Embedding of `util::mem::read_u8`: the byte at offset `i`. -/
def read_u8 (b : ByteImage) (i : Nat) : Nat := b i

/-- Embedding of `util::mem::read_u16_le`: little-endian 16-bit read at offset `i`. -/
def read_u16_le (b : ByteImage) (i : Nat) : Nat :=
  b i + 256 * b (i + 1)

/-- Embedding of `util::mem::read_u32_le`: little-endian 32-bit read at offset `i`. -/
def read_u32_le (b : ByteImage) (i : Nat) : Nat :=
  b i + 256 * b (i + 1) + 65536 * b (i + 2) + 16777216 * b (i + 3)

/-- The ASCII bytes of the exFAT signature string at offsets 3..10. -/
def EXFAT_SIG : List Nat := [69, 88, 70, 65, 84, 32, 32, 32]

/-- Embedding of the type check in `ExFat::open`
(`&boot[3..11] != b"EXFAT   " || !boot[11..64].iter().all(|&b| b == 0)`,
negated: `true` means the image passes the check). -/
def checkBootType (b : ByteImage) : Bool :=
  ((List.range 8).all fun i => b (3 + i) == EXFAT_SIG.getD i 0) &&
  ((List.range 53).all fun i => b (11 + i) == 0)

/-- Embedding of `exfat::param::Params` as populated by `ExFat::open`. -/
structure Params where
  fat_offset : Nat
  fat_length : Nat
  cluster_heap_offset : Nat
  cluster_count : Nat
  first_cluster_of_root_directory : Nat
  volume_flags : Nat
  bytes_per_sector : Nat
  sectors_per_cluster : Nat
  number_of_fats : Nat
deriving DecidableEq, Repr

/-- Embedding of `exfat::OpenError` (I/O payloads dropped: the embedding
separates I/O via oracles, see `openExFat`). -/
inductive OpenError where
  | ReadMainBootFailed
  | NotExFat
  | InvalidBytesPerSectorShift
  | InvalidSectorsPerClusterShift
  | InvalidNumberOfFats
  | ReadFatRegionFailed
  | ReadRootFailed
  | NoAllocationBitmap
deriving DecidableEq, Repr

/-- Embedding of the geometry-parsing portion of `ExFat::open`
(src/exfat/src/lib.rs lines 31-74): the type check, then the `Params`
struct literal whose field initializers run in source order, so the
`bytes_per_sector` shift check runs before the `sectors_per_cluster`
check, which runs before the `number_of_fats` check; the first failing
check aborts with its error. -/
def parseParams (b : ByteImage) : Except OpenError Params :=
  if checkBootType b then
    if 9 ≤ read_u8 b 108 ∧ read_u8 b 108 ≤ 12 then
      if read_u8 b 109 ≤ 25 - read_u8 b 108 then
        if read_u8 b 110 = 1 ∨ read_u8 b 110 = 2 then
          Except.ok
            { fat_offset := read_u32_le b 80
              fat_length := read_u32_le b 84
              cluster_heap_offset := read_u32_le b 88
              cluster_count := read_u32_le b 92
              first_cluster_of_root_directory := read_u32_le b 96
              volume_flags := read_u16_le b 106
              bytes_per_sector := 2 ^ read_u8 b 108
              sectors_per_cluster := 2 ^ read_u8 b 109
              number_of_fats := read_u8 b 110 }
        else Except.error OpenError.InvalidNumberOfFats
      else Except.error OpenError.InvalidSectorsPerClusterShift
    else Except.error OpenError.InvalidBytesPerSectorShift
  else Except.error OpenError.NotExFat

/-- Embedding of the FAT table loaded by `exfat::fat::Fat::load`: a
fixed table of 32-bit entries, index-addressable by cluster number. -/
structure Fat where
  entries : List Nat
deriving DecidableEq, Repr

/-- Modelled from the spec: `exfat::param::VolumeFlags::active_fat` lives in
src/exfat/src/param.rs, which is absent from the sources; the spec says the
active FAT copy "is determined by a bit in `volume_flags`", so it is modelled
as the low bit of the 16-bit flags word. -/
def active_fat (volume_flags : Nat) : Nat := volume_flags % 2

/-- Embedding of the allocation-bitmap descriptor decoded from a root
directory Allocation Bitmap entry (first cluster and byte length of the
bitmap stream, per the spec). -/
structure AllocationBitmap where
  first_cluster : Nat
  data_length : Nat
deriving DecidableEq, Repr

/-- Embedding of `exfat::directory::entry::EntrySet` as used by
`ExFat::open`: the optional volume label and the two optional
allocation-bitmap descriptors, indexed by FAT-copy index (list position). -/
structure EntrySet where
  volume_label : Option String
  allocation_bitmaps : List (Option AllocationBitmap)
deriving DecidableEq, Repr

/-- Embedding of the mounted handle `ExFat` (the image handle itself is
outside the state; the handle keeps the parsed geometry, the loaded FAT
and the extracted volume label, exactly the fields `ExFat::open` stores). -/
structure ExFat where
  params : Params
  fat : Fat
  volume_label : Option String
deriving DecidableEq, Repr

/-- Embedding of the FAT-region stage of `ExFat::open`
(src/exfat/src/lib.rs lines 76-85): load copy `active_fat` only when the
flag selects the primary copy or a second copy exists, else fail with
`InvalidNumberOfFats`.  `loadFat` is the I/O oracle standing for
`Fat::load(&params, &mut image, active_fat)`. -/
def fatStage (p : Params) (loadFat : Nat → Except Unit Fat) : Except OpenError Fat :=
  if active_fat p.volume_flags = 0 ∨ p.number_of_fats = 2 then
    match loadFat (active_fat p.volume_flags) with
    | Except.ok v => Except.ok v
    | Except.error _ => Except.error OpenError.ReadFatRegionFailed
  else Except.error OpenError.InvalidNumberOfFats

/-- Embedding of `ExFat::open` after the boot sector has been read
(src/exfat/src/lib.rs lines 31-109): geometry parsing, the FAT-region
stage, loading the root entry set (`loadRoot` is the I/O oracle standing
for `EntrySet::load`), the allocation-bitmap cross-check, and construction
of the mounted handle. -/
def openExFat (b : ByteImage) (loadFat : Nat → Except Unit Fat)
    (loadRoot : Params → Fat → Nat → Except Unit EntrySet) :
    Except OpenError ExFat :=
  match parseParams b with
  | Except.error e => Except.error e
  | Except.ok p =>
    match fatStage p loadFat with
    | Except.error e => Except.error e
    | Except.ok fat =>
      match loadRoot p fat p.first_cluster_of_root_directory with
      | Except.error _ => Except.error OpenError.ReadRootFailed
      | Except.ok entries =>
        if p.number_of_fats = 2 then
          if (entries.allocation_bitmaps.getD 1 none).isNone then
            Except.error OpenError.NoAllocationBitmap
          else Except.ok ⟨p, fat, entries.volume_label⟩
        else
          if (entries.allocation_bitmaps.getD 0 none).isNone then
            Except.error OpenError.NoAllocationBitmap
          else Except.ok ⟨p, fat, entries.volume_label⟩

/-- Errors of the FAT cluster-chain traversal (spec section 4.2: a chain
lookup landing on the free marker, the bad-cluster marker, a value outside
the valid cluster range, or a revisited cluster is a corruption error). -/
inductive ChainError where
  | FreeCluster
  | BadCluster
  | OutOfRange
  | CyclicChain
deriving DecidableEq, Repr

/-- Modelled from the spec: the FAT chain-traversal step of
src/exfat/src/fat.rs, absent from the sources.  Looks up the FAT entry of
the last-yielded cluster: `0xFFFFFFFF` ends the chain, `0` (free) and
`0xFFFFFFF7` (bad) are corruption errors, any other value must lie in
`[2, cluster_count + 1]` to be the next cluster. -/
def chainStep (fat : Fat) (cluster_count : Nat) (c : Nat) :
    Except ChainError (Option Nat) :=
  let e := fat.entries.getD c 0
  if e = 4294967295 then Except.ok none
  else if e = 0 then Except.error ChainError.FreeCluster
  else if e = 4294967287 then Except.error ChainError.BadCluster
  else if 2 ≤ e ∧ e ≤ cluster_count + 1 then Except.ok (some e)
  else Except.error ChainError.OutOfRange

/-- Modelled from the spec: the chain traversal loop (spec 4.2 and design
note: the sequence "must never loop", an implementation detects revisited
cluster indices and fails fast on a corrupt cyclic chain).  `visited` is
the list of clusters yielded so far; `fuel` bounds the recursion and is
chosen so it can never run out before a revisit is caught. -/
def walkChainAux (fat : Fat) (cluster_count : Nat) :
    Nat → Nat → List Nat → Except ChainError (List Nat)
  | 0, _, _ => Except.error ChainError.CyclicChain
  | fuel + 1, c, visited =>
    if c ∈ visited then Except.error ChainError.CyclicChain
    else
      match chainStep fat cluster_count c with
      | Except.error e => Except.error e
      | Except.ok none => Except.ok (visited ++ [c])
      | Except.ok (some n) => walkChainAux fat cluster_count fuel n (visited ++ [c])

/-- Modelled from the spec: full chain traversal from a starting cluster,
yielding the finite list of clusters of the chain or a corruption error.
The fuel `cluster_count + 2` exceeds the number of distinct valid cluster
indices, so exhaustion is unreachable: a revisit fails first. -/
def walkChain (fat : Fat) (cluster_count : Nat) (start : Nat) :
    Except ChainError (List Nat) :=
  walkChainAux fat cluster_count (cluster_count + 2) start []

/-- Little-endian byte decomposition of a 32-bit value, used by the
synthetic boot-sector encoder. -/
def leBytes4 (x : Nat) : List Nat :=
  [x % 256, x / 256 % 256, x / 65536 % 256, x / 16777216 % 256]

/-- Little-endian byte decomposition of a 16-bit value. -/
def leBytes2 (x : Nat) : List Nat :=
  [x % 256, x / 256 % 256]

/-- Synthetic boot-sector encoder (spec section 8, round-trip property):
lays out the signature at offset 3, zeros through offset 79, the five
32-bit little-endian fields at offsets 80/84/88/92/96, zeros at 100-105,
the 16-bit `volume_flags` at 106, the three shift/count bytes at
108/109/110, and zeros everywhere past the encoded fields. -/
def mkBoot (fo fl cho cc fcrd vf bps spc nf : Nat) : ByteImage := fun i =>
  if i < 3 then 0
  else if i < 11 then EXFAT_SIG.getD (i - 3) 0
  else if i < 80 then 0
  else if i < 84 then (leBytes4 fo).getD (i - 80) 0
  else if i < 88 then (leBytes4 fl).getD (i - 84) 0
  else if i < 92 then (leBytes4 cho).getD (i - 88) 0
  else if i < 96 then (leBytes4 cc).getD (i - 92) 0
  else if i < 100 then (leBytes4 fcrd).getD (i - 96) 0
  else if i < 106 then 0
  else if i < 108 then (leBytes2 vf).getD (i - 106) 0
  else if i = 108 then bps
  else if i = 109 then spc
  else if i = 110 then nf
  else 0

/-! ## Helper lemmas -/

lemma checkBootType_iff (b : ByteImage) :
    checkBootType b = true ↔
      (∀ i, i < 8 → b (3 + i) = EXFAT_SIG.getD i 0) ∧
      (∀ i, 11 ≤ i → i < 64 → b i = 0) := by
  unfold checkBootType
  rw [Bool.and_eq_true, List.all_eq_true, List.all_eq_true]
  constructor
  · rintro ⟨h1, h2⟩
    refine ⟨fun i hi => beq_iff_eq.mp (h1 i (List.mem_range.mpr hi)), fun i hge hlt => ?_⟩
    have h := beq_iff_eq.mp (h2 (i - 11) (List.mem_range.mpr (by omega)))
    rwa [show 11 + (i - 11) = i from by omega] at h
  · rintro ⟨h1, h2⟩
    refine ⟨fun i hi => beq_iff_eq.mpr (h1 i (List.mem_range.mp hi)), fun i hi => ?_⟩
    exact beq_iff_eq.mpr (h2 (11 + i) (by omega) (by have := List.mem_range.mp hi; omega))

lemma parseParams_checkFail {b : ByteImage} (h : checkBootType b = false) :
    parseParams b = Except.error OpenError.NotExFat := by
  unfold parseParams
  rw [h]
  rfl

lemma parseParams_ne_notExFat {b : ByteImage} (h : checkBootType b = true) :
    parseParams b ≠ Except.error OpenError.NotExFat := by
  unfold parseParams
  rw [h, if_pos rfl]
  split_ifs <;> simp

/-! ## Claim theorems -/

/-- C3: for every boot sector read successfully, `ExFat::open` returns
`NotExFat` if and only if bytes `[3,11)` differ from the ASCII signature
`"EXFAT   "` or some byte in `[11,64)` is non-zero; in particular a single
non-zero reserved byte forces `NotExFat`. -/
theorem parse_notExFat_iff (b : ByteImage) :
    (parseParams b = Except.error OpenError.NotExFat ↔
      (¬ ∀ i, i < 8 → b (3 + i) = EXFAT_SIG.getD i 0) ∨
        ∃ j, 11 ≤ j ∧ j < 64 ∧ b j ≠ 0) ∧
    (∀ j, 11 ≤ j → j < 64 → b j ≠ 0 →
      parseParams b = Except.error OpenError.NotExFat) := by
  have hchar : parseParams b = Except.error OpenError.NotExFat ↔
      ¬ checkBootType b = true := by
    constructor
    · intro h hc
      exact parseParams_ne_notExFat hc h
    · intro h
      exact parseParams_checkFail (Bool.not_eq_true _ ▸ h)
  have hsplit : (¬ checkBootType b = true) ↔
      (¬ ∀ i, i < 8 → b (3 + i) = EXFAT_SIG.getD i 0) ∨
        ∃ j, 11 ≤ j ∧ j < 64 ∧ b j ≠ 0 := by
    rw [checkBootType_iff, not_and_or]
    refine or_congr Iff.rfl ?_
    constructor
    · intro h
      by_contra hne
      push_neg at hne
      exact h hne
    · rintro ⟨j, h1, h2, h3⟩ hall
      exact h3 (hall j h1 h2)
  refine ⟨hchar.trans hsplit, fun j h1 h2 h3 => ?_⟩
  exact hchar.mpr (hsplit.mpr (Or.inr ⟨j, h1, h2, h3⟩))

/-- Witness for C3: the all-valid synthetic boot sector with byte 20
(inside the reserved must-be-zero region) overwritten to 1 is rejected
as `NotExFat`. -/
theorem parse_notExFat_iff_witness :
    parseParams (fun i => if i = 20 then 1 else mkBoot 0 0 0 0 0 0 9 0 1 i) =
      Except.error OpenError.NotExFat :=
  (parse_notExFat_iff _).2 20 (by omega) (by omega) (by decide)

/-- C4: for every boot sector passing the signature and reserved-region
checks, `ExFat::open` returns `InvalidBytesPerSectorShift` if and only if
the byte at offset 108 lies outside `[9,12]`. -/
theorem parse_invalidBps_iff (b : ByteImage) (h : checkBootType b = true) :
    parseParams b = Except.error OpenError.InvalidBytesPerSectorShift ↔
      read_u8 b 108 < 9 ∨ 12 < read_u8 b 108 := by
  unfold parseParams
  rw [h, if_pos rfl]
  by_cases h1 : 9 ≤ read_u8 b 108 ∧ read_u8 b 108 ≤ 12
  · rw [if_pos h1]
    split_ifs <;> simp <;> omega
  · rw [if_neg h1]
    push_neg at h1
    constructor
    · intro _
      omega
    · intro _
      rfl

/-- Witness for C4: shift 13 at offset 108 (an otherwise valid boot
sector) is rejected with `InvalidBytesPerSectorShift`. -/
theorem parse_invalidBps_iff_witness :
    parseParams (mkBoot 1 1 1 1 1 0 13 0 1) =
      Except.error OpenError.InvalidBytesPerSectorShift :=
  (parse_invalidBps_iff _ (by decide)).mpr (by decide)

/-- C5: for every boot sector passing the signature, reserved-region and
bytes-per-sector checks, `ExFat::open` returns
`InvalidSectorsPerClusterShift` if and only if the byte at offset 109
exceeds 25 minus the byte at offset 108. -/
theorem parse_invalidSpc_iff (b : ByteImage) (h : checkBootType b = true)
    (h9 : 9 ≤ read_u8 b 108) (h12 : read_u8 b 108 ≤ 12) :
    parseParams b = Except.error OpenError.InvalidSectorsPerClusterShift ↔
      25 - read_u8 b 108 < read_u8 b 109 := by
  unfold parseParams
  rw [h, if_pos rfl, if_pos ⟨h9, h12⟩]
  by_cases h2 : read_u8 b 109 ≤ 25 - read_u8 b 108
  · rw [if_pos h2]
    split_ifs <;> simp <;> omega
  · rw [if_neg h2]
    constructor
    · intro _
      omega
    · intro _
      rfl

/-- Witness for C5: shift 17 at offset 109 with shift 9 at offset 108
(17 = 25 - 9 + 1) is rejected with `InvalidSectorsPerClusterShift`. -/
theorem parse_invalidSpc_iff_witness :
    parseParams (mkBoot 2 2 2 2 2 0 9 17 1) =
      Except.error OpenError.InvalidSectorsPerClusterShift :=
  (parse_invalidSpc_iff _ (by decide) (by decide) (by decide)).mpr (by decide)

/-- C6: for every boot sector passing all earlier geometry checks,
`ExFat::open` returns `InvalidNumberOfFats` during geometry parsing if
and only if the byte at offset 110 is neither 1 nor 2. -/
theorem parse_invalidNumFats_iff (b : ByteImage) (h : checkBootType b = true)
    (h9 : 9 ≤ read_u8 b 108) (h12 : read_u8 b 108 ≤ 12)
    (hspc : read_u8 b 109 ≤ 25 - read_u8 b 108) :
    parseParams b = Except.error OpenError.InvalidNumberOfFats ↔
      read_u8 b 110 ≠ 1 ∧ read_u8 b 110 ≠ 2 := by
  unfold parseParams
  rw [h, if_pos rfl, if_pos ⟨h9, h12⟩, if_pos hspc]
  by_cases h3 : read_u8 b 110 = 1 ∨ read_u8 b 110 = 2
  · rw [if_pos h3]
    simp
    omega
  · rw [if_neg h3]
    push_neg at h3
    constructor
    · intro _
      exact h3
    · intro _
      rfl

/-- Witness for C6: 3 FAT copies declared at offset 110 is rejected with
`InvalidNumberOfFats`. -/
theorem parse_invalidNumFats_iff_witness :
    parseParams (mkBoot 3 3 3 3 3 0 10 2 3) =
      Except.error OpenError.InvalidNumberOfFats :=
  (parse_invalidNumFats_iff _ (by decide) (by decide) (by decide)
    (by decide)).mpr (by decide)

/-- C8: the geometry checks of `ExFat::open` short-circuit in a fixed
order: a failed type check yields `NotExFat` whatever the later fields
hold; with the type check passed, an out-of-range byte 108 yields
`InvalidBytesPerSectorShift` whatever bytes 109 and 110 hold; with byte
108 in range, an out-of-range byte 109 yields
`InvalidSectorsPerClusterShift` whatever byte 110 holds; and only then
is byte 110 checked for `InvalidNumberOfFats`. -/
theorem parse_error_priority (b : ByteImage) :
    (checkBootType b = false → parseParams b = Except.error OpenError.NotExFat) ∧
    (checkBootType b = true → ¬(9 ≤ read_u8 b 108 ∧ read_u8 b 108 ≤ 12) →
      parseParams b = Except.error OpenError.InvalidBytesPerSectorShift) ∧
    (checkBootType b = true → 9 ≤ read_u8 b 108 → read_u8 b 108 ≤ 12 →
      25 - read_u8 b 108 < read_u8 b 109 →
      parseParams b = Except.error OpenError.InvalidSectorsPerClusterShift) ∧
    (checkBootType b = true → 9 ≤ read_u8 b 108 → read_u8 b 108 ≤ 12 →
      read_u8 b 109 ≤ 25 - read_u8 b 108 →
      read_u8 b 110 ≠ 1 → read_u8 b 110 ≠ 2 →
      parseParams b = Except.error OpenError.InvalidNumberOfFats) := by
  refine ⟨fun h => parseParams_checkFail h, fun h h1 => ?_, fun h h9 h12 h2 => ?_,
    fun h h9 h12 hspc hn1 hn2 => ?_⟩
  · unfold parseParams
    rw [h, if_pos rfl, if_neg h1]
  · unfold parseParams
    rw [h, if_pos rfl, if_pos ⟨h9, h12⟩, if_neg (by omega)]
  · unfold parseParams
    rw [h, if_pos rfl, if_pos ⟨h9, h12⟩, if_pos hspc, if_neg (by omega)]

/-- Witness for C8: a boot sector violating every rule at once (every byte
5) is rejected with `NotExFat`, the first check's error, and one violating
both the byte-108 and byte-110 rules is rejected with
`InvalidBytesPerSectorShift`, the earlier of the two. -/
theorem parse_error_priority_witness :
    parseParams (fun _ => 5) = Except.error OpenError.NotExFat ∧
    parseParams (mkBoot 4 4 4 4 4 0 14 200 7) =
      Except.error OpenError.InvalidBytesPerSectorShift :=
  ⟨(parse_error_priority (fun _ => 5)).1 (by decide),
    (parse_error_priority _).2.1 (by decide) (by decide)⟩

/-- C10: the `u8` subtraction `25 - read_u8(boot, 108)` in the
`sectors_per_cluster` initializer never underflows: any boot sector whose
parse gets past the type check and the `bytes_per_sector` check (the
initializers before it, in source order) has byte 108 in `[9,12]`, so the
subtraction's result, computed in `Int`, lies in `[13,16]`. -/
theorem spc_subtraction_no_underflow (b : ByteImage)
    (h1 : parseParams b ≠ Except.error OpenError.NotExFat)
    (h2 : parseParams b ≠ Except.error OpenError.InvalidBytesPerSectorShift) :
    9 ≤ (read_u8 b 108 : Int) ∧ (read_u8 b 108 : Int) ≤ 12 ∧
      13 ≤ 25 - (read_u8 b 108 : Int) ∧ 25 - (read_u8 b 108 : Int) ≤ 16 := by
  have hc : checkBootType b = true := by
    by_contra hc
    exact h1 (parseParams_checkFail (Bool.not_eq_true _ ▸ hc))
  have hbps : 9 ≤ read_u8 b 108 ∧ read_u8 b 108 ≤ 12 := by
    by_contra hb
    exact h2 ((parse_invalidBps_iff b hc).mpr (by omega))
  obtain ⟨ha, hb⟩ := hbps
  refine ⟨?_, ?_, ?_, ?_⟩ <;> omega

/-- Witness for C10: a boot sector with shift 12 at offset 108 passes both
earlier checks and the subtraction result is 13, inside `[13,16]`. -/
theorem spc_subtraction_no_underflow_witness :
    9 ≤ (read_u8 (mkBoot 6 6 6 6 6 0 12 13 1) 108 : Int) ∧
      (read_u8 (mkBoot 6 6 6 6 6 0 12 13 1) 108 : Int) ≤ 12 ∧
      13 ≤ 25 - (read_u8 (mkBoot 6 6 6 6 6 0 12 13 1) 108 : Int) ∧
      25 - (read_u8 (mkBoot 6 6 6 6 6 0 12 13 1) 108 : Int) ≤ 16 :=
  spc_subtraction_no_underflow _
    (by rw [show parseParams (mkBoot 6 6 6 6 6 0 12 13 1) =
          Except.ok ⟨6, 6, 6, 6, 6, 0, 4096, 8192, 1⟩ from rfl]
        simp)
    (by rw [show parseParams (mkBoot 6 6 6 6 6 0 12 13 1) =
          Except.ok ⟨6, 6, 6, 6, 6, 0, 4096, 8192, 1⟩ from rfl]
        simp)

/-- C2: round-trip of the geometry parser: encoding a synthetic boot
sector with chosen field values, shifts and FAT count and parsing it
yields exactly those values, with `bytes_per_sector` and
`sectors_per_cluster` the corresponding powers of two. -/
theorem parse_mkBoot_roundtrip (fo fl cho cc fcrd vf bps spc nf : Nat)
    (hfo : fo < 4294967296) (hfl : fl < 4294967296) (hcho : cho < 4294967296)
    (hcc : cc < 4294967296) (hfcrd : fcrd < 4294967296) (hvf : vf < 65536)
    (hbps9 : 9 ≤ bps) (hbps12 : bps ≤ 12) (hspc : spc ≤ 25 - bps)
    (hnf : nf = 1 ∨ nf = 2) :
    parseParams (mkBoot fo fl cho cc fcrd vf bps spc nf) =
      Except.ok ⟨fo, fl, cho, cc, fcrd, vf, 2 ^ bps, 2 ^ spc, nf⟩ := by
  have hcheck : checkBootType (mkBoot fo fl cho cc fcrd vf bps spc nf) = true := rfl
  have h108 : read_u8 (mkBoot fo fl cho cc fcrd vf bps spc nf) 108 = bps := rfl
  have h109 : read_u8 (mkBoot fo fl cho cc fcrd vf bps spc nf) 109 = spc := rfl
  have h110 : read_u8 (mkBoot fo fl cho cc fcrd vf bps spc nf) 110 = nf := rfl
  have e80 : read_u32_le (mkBoot fo fl cho cc fcrd vf bps spc nf) 80 = fo := by
    have h : read_u32_le (mkBoot fo fl cho cc fcrd vf bps spc nf) 80 =
        fo % 256 + 256 * (fo / 256 % 256) + 65536 * (fo / 65536 % 256) +
          16777216 * (fo / 16777216 % 256) := rfl
    omega
  have e84 : read_u32_le (mkBoot fo fl cho cc fcrd vf bps spc nf) 84 = fl := by
    have h : read_u32_le (mkBoot fo fl cho cc fcrd vf bps spc nf) 84 =
        fl % 256 + 256 * (fl / 256 % 256) + 65536 * (fl / 65536 % 256) +
          16777216 * (fl / 16777216 % 256) := rfl
    omega
  have e88 : read_u32_le (mkBoot fo fl cho cc fcrd vf bps spc nf) 88 = cho := by
    have h : read_u32_le (mkBoot fo fl cho cc fcrd vf bps spc nf) 88 =
        cho % 256 + 256 * (cho / 256 % 256) + 65536 * (cho / 65536 % 256) +
          16777216 * (cho / 16777216 % 256) := rfl
    omega
  have e92 : read_u32_le (mkBoot fo fl cho cc fcrd vf bps spc nf) 92 = cc := by
    have h : read_u32_le (mkBoot fo fl cho cc fcrd vf bps spc nf) 92 =
        cc % 256 + 256 * (cc / 256 % 256) + 65536 * (cc / 65536 % 256) +
          16777216 * (cc / 16777216 % 256) := rfl
    omega
  have e96 : read_u32_le (mkBoot fo fl cho cc fcrd vf bps spc nf) 96 = fcrd := by
    have h : read_u32_le (mkBoot fo fl cho cc fcrd vf bps spc nf) 96 =
        fcrd % 256 + 256 * (fcrd / 256 % 256) + 65536 * (fcrd / 65536 % 256) +
          16777216 * (fcrd / 16777216 % 256) := rfl
    omega
  have e106 : read_u16_le (mkBoot fo fl cho cc fcrd vf bps spc nf) 106 = vf := by
    have h : read_u16_le (mkBoot fo fl cho cc fcrd vf bps spc nf) 106 =
        vf % 256 + 256 * (vf / 256 % 256) := rfl
    omega
  unfold parseParams
  rw [hcheck, if_pos rfl, h108, h109, h110, e80, e84, e88, e92, e96, e106,
    if_pos ⟨hbps9, hbps12⟩, if_pos hspc, if_pos hnf]

/-- Witness for C2: a concrete synthetic boot sector round-trips. -/
theorem parse_mkBoot_roundtrip_witness :
    parseParams (mkBoot 128 64 192 4096 5 1 9 3 2) =
      Except.ok ⟨128, 64, 192, 4096, 5, 1, 512, 8, 2⟩ :=
  parse_mkBoot_roundtrip 128 64 192 4096 5 1 9 3 2 (by omega) (by omega)
    (by omega) (by omega) (by omega) (by omega) (by omega) (by omega)
    (by omega) (Or.inr rfl)

lemma parseParams_ok_numFats {b : ByteImage} {p : Params}
    (hp : parseParams b = Except.ok p) :
    p.number_of_fats = 1 ∨ p.number_of_fats = 2 := by
  unfold parseParams at hp
  split_ifs at hp with h1 h2 h3 h4
  all_goals cases hp
  simpa using h4

/-- C7: once the geometry has been parsed, `ExFat::open` proceeds to load
FAT copy `active_fat` exactly when the flag selects the primary copy or a
second copy exists (the result is then the loader's result); otherwise the
number of FATs is 1 and it fails with `InvalidNumberOfFats` for every
loader, i.e. without attempting the FAT read. -/
theorem fatStage_active_iff (b : ByteImage) (p : Params)
    (hp : parseParams b = Except.ok p) :
    (∀ loadFat, (active_fat p.volume_flags = 0 ∨ p.number_of_fats = 2) →
      fatStage p loadFat =
        match loadFat (active_fat p.volume_flags) with
        | Except.ok v => Except.ok v
        | Except.error _ => Except.error OpenError.ReadFatRegionFailed) ∧
    (active_fat p.volume_flags ≠ 0 → p.number_of_fats ≠ 2 →
      p.number_of_fats = 1 ∧
        ∀ loadFat, fatStage p loadFat = Except.error OpenError.InvalidNumberOfFats) := by
  constructor
  · intro loadFat hcond
    unfold fatStage
    rw [if_pos hcond]
  · intro hne h2
    have hn1 : p.number_of_fats = 1 := by
      rcases parseParams_ok_numFats hp with h | h
      · exact h
      · exact absurd h h2
    refine ⟨hn1, fun loadFat => ?_⟩
    unfold fatStage
    rw [if_neg (not_or.mpr ⟨hne, h2⟩)]

/-- Witness for C7: a volume with `volume_flags = 1` (active FAT copy 1)
but a single FAT fails with `InvalidNumberOfFats` even under a loader that
would succeed. -/
theorem fatStage_active_iff_witness :
    fatStage ⟨0, 0, 0, 0, 0, 1, 512, 1, 1⟩ (fun _ => Except.ok ⟨[]⟩) =
      Except.error OpenError.InvalidNumberOfFats :=
  ((fatStage_active_iff (mkBoot 0 0 0 0 0 1 9 0 1) ⟨0, 0, 0, 0, 0, 1, 512, 1, 1⟩
      rfl).2 (by decide) (by decide)).2 (fun _ => Except.ok ⟨[]⟩)

/-- C1: with geometry parsed, the FAT loaded and the root entry set
loaded, `ExFat::open` fails with `NoAllocationBitmap` exactly when the
allocation-bitmap descriptor for copy index 1 is absent on a two-FAT
volume, or the descriptor for copy index 0 is absent on a one-FAT volume;
otherwise it succeeds and the handle's volume label is exactly the
optional label extracted from the root entry set. -/
theorem open_noAllocationBitmap_iff (b : ByteImage) (p : Params) (fat : Fat)
    (entries : EntrySet) (loadFat : Nat → Except Unit Fat)
    (loadRoot : Params → Fat → Nat → Except Unit EntrySet)
    (hp : parseParams b = Except.ok p)
    (hcond : active_fat p.volume_flags = 0 ∨ p.number_of_fats = 2)
    (hfat : loadFat (active_fat p.volume_flags) = Except.ok fat)
    (hroot : loadRoot p fat p.first_cluster_of_root_directory = Except.ok entries) :
    (openExFat b loadFat loadRoot = Except.error OpenError.NoAllocationBitmap ↔
      (p.number_of_fats = 2 ∧ entries.allocation_bitmaps.getD 1 none = none) ∨
        (p.number_of_fats = 1 ∧ entries.allocation_bitmaps.getD 0 none = none)) ∧
    (¬ ((p.number_of_fats = 2 ∧ entries.allocation_bitmaps.getD 1 none = none) ∨
        (p.number_of_fats = 1 ∧ entries.allocation_bitmaps.getD 0 none = none)) →
      openExFat b loadFat loadRoot = Except.ok ⟨p, fat, entries.volume_label⟩) := by
  have hred : openExFat b loadFat loadRoot =
      if p.number_of_fats = 2 then
        if (entries.allocation_bitmaps.getD 1 none).isNone then
          Except.error OpenError.NoAllocationBitmap
        else Except.ok ⟨p, fat, entries.volume_label⟩
      else
        if (entries.allocation_bitmaps.getD 0 none).isNone then
          Except.error OpenError.NoAllocationBitmap
        else Except.ok ⟨p, fat, entries.volume_label⟩ := by
    simp only [openExFat, fatStage, hp, if_pos hcond, hfat, hroot]
  have hnf := parseParams_ok_numFats hp
  rw [hred]
  by_cases hn2 : p.number_of_fats = 2
  · rw [if_pos hn2]
    by_cases hbm : (entries.allocation_bitmaps.getD 1 none).isNone = true
    · rw [if_pos hbm]
      have habs := Option.isNone_iff_eq_none.mp hbm
      refine ⟨⟨fun _ => Or.inl ⟨hn2, habs⟩, fun _ => rfl⟩, fun hcontra => ?_⟩
      exact absurd (Or.inl ⟨hn2, habs⟩) hcontra
    · rw [if_neg hbm]
      refine ⟨⟨fun h => absurd h (by simp), ?_⟩, fun _ => rfl⟩
      rintro (⟨_, h⟩ | ⟨h1, _⟩)
      · exact absurd (Option.isNone_iff_eq_none.mpr h) hbm
      · rw [h1] at hn2
        cases hn2
  · have hn1 : p.number_of_fats = 1 := by
      rcases hnf with h | h
      · exact h
      · exact absurd h hn2
    rw [if_neg hn2]
    by_cases hbm : (entries.allocation_bitmaps.getD 0 none).isNone = true
    · rw [if_pos hbm]
      have habs := Option.isNone_iff_eq_none.mp hbm
      refine ⟨⟨fun _ => Or.inr ⟨hn1, habs⟩, fun _ => rfl⟩, fun hcontra => ?_⟩
      exact absurd (Or.inr ⟨hn1, habs⟩) hcontra
    · rw [if_neg hbm]
      refine ⟨⟨fun h => absurd h (by simp), ?_⟩, fun _ => rfl⟩
      rintro (⟨h1, _⟩ | ⟨_, h⟩)
      · exact absurd h1 hn2
      · exact absurd (Option.isNone_iff_eq_none.mpr h) hbm

/-- Witness for C1: a one-FAT synthetic volume whose root entry set holds
the copy-0 allocation bitmap and the label "TEST" mounts successfully
with volume label "TEST". -/
theorem open_noAllocationBitmap_iff_witness :
    openExFat (mkBoot 9 9 9 9 9 0 9 0 1) (fun _ => Except.ok ⟨[]⟩)
        (fun _ _ _ => Except.ok ⟨some "TEST", [some ⟨2, 8⟩, none]⟩) =
      Except.ok ⟨⟨9, 9, 9, 9, 9, 0, 512, 1, 1⟩, ⟨[]⟩, some "TEST"⟩ :=
  (open_noAllocationBitmap_iff (mkBoot 9 9 9 9 9 0 9 0 1)
      ⟨9, 9, 9, 9, 9, 0, 512, 1, 1⟩ ⟨[]⟩ ⟨some "TEST", [some ⟨2, 8⟩, none]⟩
      (fun _ => Except.ok ⟨[]⟩)
      (fun _ _ _ => Except.ok ⟨some "TEST", [some ⟨2, 8⟩, none]⟩)
      rfl (Or.inl rfl) rfl rfl).2 (by decide)

lemma walkChainAux_succ (fat : Fat) (cluster_count fuel c : Nat) (visited : List Nat) :
    walkChainAux fat cluster_count (fuel + 1) c visited =
      if c ∈ visited then Except.error ChainError.CyclicChain
      else
        match chainStep fat cluster_count c with
        | Except.error e => Except.error e
        | Except.ok none => Except.ok (visited ++ [c])
        | Except.ok (some n) =>
            walkChainAux fat cluster_count fuel n (visited ++ [c]) := rfl

/-- C9: a FAT containing a two-cluster cycle (cluster A points to B and B
back to A, both in the valid range) makes the chain traversal from A
terminate with an error instead of yielding an infinite sequence. -/
theorem walkChain_cycle_error (fat : Fat) (cluster_count A B : Nat)
    (hAB : A ≠ B)
    (hA : fat.entries.getD A 0 = B) (hB : fat.entries.getD B 0 = A)
    (hA2 : 2 ≤ A) (hA1 : A ≤ cluster_count + 1)
    (hB2 : 2 ≤ B) (hB1 : B ≤ cluster_count + 1)
    (hcap : cluster_count + 1 < 4294967287) :
    walkChain fat cluster_count A = Except.error ChainError.CyclicChain := by
  have hstepA : chainStep fat cluster_count A = Except.ok (some B) := by
    unfold chainStep
    rw [hA, if_neg (by omega), if_neg (by omega), if_neg (by omega),
      if_pos ⟨hB2, hB1⟩]
  have hstepB : chainStep fat cluster_count B = Except.ok (some A) := by
    unfold chainStep
    rw [hB, if_neg (by omega), if_neg (by omega), if_neg (by omega),
      if_pos ⟨hA2, hA1⟩]
  have h1 : walkChain fat cluster_count A =
      walkChainAux fat cluster_count (cluster_count + 1) B [A] := by
    rw [walkChain, show cluster_count + 2 = (cluster_count + 1) + 1 from rfl,
      walkChainAux_succ, if_neg (List.not_mem_nil A), hstepA]
    rfl
  have h2 : walkChainAux fat cluster_count (cluster_count + 1) B [A] =
      walkChainAux fat cluster_count cluster_count A [A, B] := by
    rw [walkChainAux_succ, if_neg (by simpa using fun h => hAB h.symm), hstepB]
    rfl
  have h3 : walkChainAux fat cluster_count cluster_count A [A, B] =
      Except.error ChainError.CyclicChain := by
    obtain ⟨m, hm⟩ : ∃ m, cluster_count = m + 1 := ⟨cluster_count - 1, by omega⟩
    rw [hm, walkChainAux_succ, if_pos (by simp)]
  rw [h1, h2, h3]

/-- Witness for C9: the concrete 4-entry FAT where cluster 2 points to 3
and cluster 3 back to 2 fails with the cyclic-chain error. -/
theorem walkChain_cycle_error_witness :
    walkChain ⟨[0, 0, 3, 2]⟩ 2 2 = Except.error ChainError.CyclicChain :=
  walkChain_cycle_error ⟨[0, 0, 3, 2]⟩ 2 2 3 (by omega) rfl rfl (by omega)
    (by omega) (by omega) (by omega) (by omega)
